import Mathlib

/-!
Verification of the module-lifecycle kernel: shallow embedding of the
repository-operations, validator, registry, backup/update and hot-reload
watcher code, with theorems settling the specification claims.
-/

namespace Kernel

/-! ## String helpers (List Char based, kernel-evaluable) -/

/-- Split a character list on a separator character, Python `str.split` style:
the empty list yields `[[]]`. -/
def splitCharAux (c : Char) : List Char → List Char → List (List Char)
  | [], acc => [acc.reverse]
  | x :: xs, acc =>
    if x = c then acc.reverse :: splitCharAux c xs []
    else splitCharAux c xs (x :: acc)

def splitChar (c : Char) (l : List Char) : List (List Char) :=
  splitCharAux c l []

/-- Take the prefix of `l` up to (excluding) the first character satisfying `p`,
returning that prefix and the rest (including the matched character). -/
def takeUntil (p : Char → Bool) : List Char → List Char × List Char
  | [] => ([], [])
  | x :: xs =>
    if p x then ([], x :: xs)
    else
      let (pre, post) := takeUntil p xs
      (x :: pre, post)

/-! ## urlsplit (embedding of `urllib.parse.urlsplit` as used on repo URLs) -/

/-- Characters allowed in a URL scheme after the first (CPython `scheme_chars`). -/
def isSchemeChar (c : Char) : Bool :=
  c.isAlphanum || c = '+' || c = '-' || c = '.'

structure UrlParts where
  scheme : String
  netloc : String
  path : String
  deriving DecidableEq, Repr

/-- Embedding of `urllib.parse.urlsplit`, returning the scheme, netloc and path
components: the fragment is split off at the first `#`, the scheme is the
lower-cased alphanumeric prefix before the first `:` (only when the first
character is a letter and all scheme characters are legal), the netloc follows
a leading `//` up to the first `/`, `?` or `#`, and the path is the remainder
up to the first `?`. -/
def urlsplit (url : String) : UrlParts :=
  let noFrag := (takeUntil (fun c => c = '#') url.data).1
  let i := noFrag.findIdx (fun c => c = ':')
  let hasScheme :=
    decide (0 < i) && decide (i < noFrag.length) &&
      (match noFrag.head? with
       | some c => c.isAlpha
       | none => false) &&
      (noFrag.take i).all isSchemeChar
  let scheme := if hasScheme then (noFrag.take i).map Char.toLower else []
  let rest := if hasScheme then noFrag.drop (i + 1) else noFrag
  let (netloc, rest2) :=
    match rest with
    | '/' :: '/' :: tail => takeUntil (fun c => c = '/' || c = '?' || c = '#') tail
    | _ => ([], rest)
  let path := (takeUntil (fun c => c = '?') rest2).1
  { scheme := String.mk scheme, netloc := String.mk netloc, path := String.mk path }

/-! ## parse_repo_url (embedding of `src/git/utils.py`) -/

/-- Embedding of `GIT_URL_TRANS_MAP` from `src/git/constants.py`:
`_ → _u_`, `/ → _s_`, `. → _d_`, `- → _h_`. -/
def gitTransChar (c : Char) : List Char :=
  if c = '_' then ['_', 'u', '_']
  else if c = '/' then ['_', 's', '_']
  else if c = '.' then ['_', 'd', '_']
  else if c = '-' then ['_', 'h', '_']
  else [c]

def gitTranslate (l : List Char) : List Char :=
  (l.map gitTransChar).flatten

/-- `str.endswith(".git")` on a character list. -/
def endsWithGit (l : List Char) : Bool :=
  match l.reverse with
  | 't' :: 'i' :: 'g' :: '.' :: _ => true
  | _ => false

/-- Host labels that `parse_repo_url` drops from the netloc. -/
def keepNetlocParts (parts : List (List Char)) : List (List Char) :=
  parts.filter (fun p => !(p = "www".data || p = "com".data))

/-- Embedding of `parse_repo_url` from `src/git/utils.py`: accepts only
`https` URLs with a dotted netloc and a path ending in `.git`; the canonical
name joins the filtered netloc and the path (scheme-stripped, suffix-stripped)
with `__`, each side escaped through `GIT_URL_TRANS_MAP`. -/
def parse_repo_url (url : String) : String × String × Bool :=
  let parsed := urlsplit url
  if parsed.scheme ≠ "https" || parsed.netloc = "" || !endsWithGit parsed.path.data
      || !parsed.netloc.data.contains '.' then
    (url, "", false)
  else
    let netlocParts := splitChar '.' parsed.netloc.data
    let kept := keepNetlocParts netlocParts
    let relevantNetloc := (kept.intersperse ['.']).flatten
    if relevantNetloc = [] then (url, "", false)
    else
      let pathNoSuffix := (parsed.path.data.reverse.drop 4).reverse
      let pathPart :=
        match pathNoSuffix with
        | '/' :: tail => tail
        | l => l
      if pathPart = [] then (url, "", false)
      else
        (url,
         String.mk (gitTranslate relevantNetloc ++ ('_' :: '_' :: gitTranslate pathPart)),
         true)

/-! ## clone_repo (embedding of `src/git/utils.py`)

The filesystem below `EXTENSIONS_DIR` is abstracted as a partial map from
directory name to an opaque content tag; `none` means no directory exists at
that name. -/

structure ExtFS where
  entries : String → Option Nat

def ExtFS.set (fs : ExtFS) (name : String) (v : Option Nat) : ExtFS :=
  ⟨fun n => if n = name then v else fs.entries n⟩

structure CloneEnv where
  netOk : Bool
  cloneContent : Nat
  deriving DecidableEq

/-- Embedding of `clone_repo`: parses the URL, and clones into the directory
named by the canonical name. `pygit2.clone_repository` raises when the target
directory already exists (non-empty), and can fail for network reasons leaving
a partial directory; on any exception the `except` branch runs
`shutil.rmtree(repo_path, ignore_errors=True)` and returns failure. -/
def clone_repo (env : CloneEnv) (fs : ExtFS) (url : String) : (String × Bool) × ExtFS :=
  match parse_repo_url url with
  | (_, repoName, isValid) =>
    if !isValid then (("", false), fs)
    else
      match fs.entries repoName with
      | some _ => (("", false), fs.set repoName none)
      | none =>
        if env.netOk then ((repoName, true), fs.set repoName (some env.cloneContent))
        else (("", false), fs.set repoName none)

/-! ## pull_repo (embedding of `src/git/utils.py`)

The repository state visible to `pull_repo` is the target of the matching
local branch reference (if that reference exists), the commit HEAD resolves
to, and the commit whose tree is checked out. The environment fixes which
VCS calls succeed and the post-fetch remote target. -/

structure PullEnv where
  openOk : Bool
  originOk : Bool
  remoteResolves : Bool
  remoteOid : Nat
  createRefOk : Bool
  checkoutRaises : Bool
  setLocalRaises : Bool
  setHeadRaises : Bool
  deriving DecidableEq

structure PullState where
  localTarget : Option Nat
  headTarget : Nat
  worktree : Nat
  deriving DecidableEq

/-- Embedding of `pull_repo`: opens the repo, finds `origin`, fetches
(exceptions suppressed), resolves the remote ref, resolves or creates the
matching local branch ref (created pointing at the remote target), returns 0
when local and remote targets already agree, and otherwise checks out the
remote tree and advances first the local branch ref and then HEAD. -/
def pull_repo (env : PullEnv) (st : PullState) : Nat × PullState :=
  if !env.openOk then (2, st)
  else if !env.originOk then (2, st)
  else if !env.remoteResolves then (3, st)
  else
    match st.localTarget with
    | none =>
      if !env.createRefOk then (3, st)
      else (0, { st with localTarget := some env.remoteOid })
    | some localOid =>
      if localOid = env.remoteOid then (0, st)
      else if env.checkoutRaises then (2, st)
      else
        let st1 := { st with worktree := env.remoteOid }
        if env.setLocalRaises then (2, st1)
        else
          let st2 := { st1 with localTarget := some env.remoteOid }
          if env.setHeadRaises then (2, st2)
          else (0, { st2 with headTarget := env.remoteOid })

/-! ## RepoInfo and get_module_info (embedding of `src/git/utils.py`) -/

structure RepoInfo where
  uncommitted_changes : Int
  url : String
  local_commit : Option Nat
  remote_commit : Option Nat
  changelog : String
  deriving DecidableEq, Repr

/-- Embedding of `RepoInfo` dataclass construction: `__post_init__` raises
`ValueError` when `uncommitted_changes` is negative, so construction is
fallible. -/
def RepoInfo.make (uncommitted : Int) (url : String) (localC remoteC : Option Nat)
    (changelog : String) : Except String RepoInfo :=
  if uncommitted < 0 then
    .error s!"uncommitted_changes must be non-negative, got {uncommitted}"
  else
    .ok ⟨uncommitted, url, localC, remoteC, changelog⟩

structure GitModuleEnv where
  discovered : Bool
  isMainRepo : Bool
  openOk : Bool
  originOk : Bool
  remoteResolves : Bool
  localCommitOk : Bool
  remoteCommitOk : Bool
  localOid : Nat
  remoteOid : Nat
  diffFilesChanged : Nat
  originUrl : Option String
  changelog : String
  deriving DecidableEq

/-- Embedding of `get_repo_commits`: `none` when the repo, origin or remote
ref cannot be resolved; otherwise the head/remote commits (each `none` when
the object is not a commit) and the diff file count, `-1` when either commit
is unresolvable. -/
def get_repo_commits (env : GitModuleEnv) : Option (Option Nat × Option Nat × Int) :=
  if !env.openOk then none
  else if !env.originOk then none
  else if !env.remoteResolves then none
  else
    let headC : Option Nat := if env.localCommitOk then some env.localOid else none
    let remC : Option Nat := if env.remoteCommitOk then some env.remoteOid else none
    let modifications : Int :=
      if remC = none ∨ headC = none then -1 else (env.diffFilesChanged : Int)
    some (headC, remC, modifications)

/-- Embedding of `get_module_info`: a `ValueError` raised by the `RepoInfo`
constructor propagates out of the call, which the `Except` layer records as
`.error`. -/
def get_module_info (env : GitModuleEnv) : Except String (Option RepoInfo × Bool) :=
  if !env.discovered || env.isMainRepo then .ok (none, false)
  else
    match get_repo_commits env with
    | none => .ok (none, false)
    | some (headC, remC, modifications) =>
      match env.originUrl with
      | none => .ok (none, false)
      | some u =>
        match RepoInfo.make modifications u headC remC env.changelog with
        | .error e => .error e
        | .ok info => .ok (some info, true)

/-! ## Dependency validation (embedding of `src/modules/utils.py`)

`_strip_requirement_lines` and `_check_python_deps` are embedded directly;
the `packaging` requirement/version machinery and the installed-package
metadata are external collaborators (§6 of the spec) and are modelled as a
small specifier language over dotted numeric versions plus an environment
mapping package names to installed versions. -/

def stripSpaces (l : List Char) : List Char :=
  ((l.dropWhile Char.isWhitespace).reverse.dropWhile Char.isWhitespace).reverse

/-- Embedding of `_strip_requirement_lines`: split into lines, cut each line
at the first `#`, strip whitespace, drop empties. -/
def strip_requirement_lines (content : String) : List String :=
  (((splitChar '\n' content.data).map
      (fun line => stripSpaces (takeUntil (fun c => c = '#') line).1)).filter
    (fun l => !l.isEmpty)).map String.mk

inductive SpecOp
  | ge | le | gt | lt | eq | ne
  deriving DecidableEq, Repr

structure PyRequirement where
  name : String
  spec : Option (SpecOp × List Nat × String)
  deriving DecidableEq, Repr

def isReqNameChar (c : Char) : Bool :=
  c.isAlphanum || c = '_' || c = '-' || c = '.'

def parseVersionPart (l : List Char) : Option Nat :=
  if l.isEmpty || !l.all Char.isDigit then none
  else some (l.foldl (fun acc c => acc * 10 + (c.toNat - '0'.toNat)) 0)

def parseVersion (l : List Char) : Option (List Nat) :=
  let parts := (splitChar '.' l).map parseVersionPart
  if parts.all Option.isSome then some (parts.map (fun p => p.getD 0)) else none

def parseSpecOp (l : List Char) : Option (SpecOp × List Char) :=
  match l with
  | '>' :: '=' :: rest => some (.ge, rest)
  | '<' :: '=' :: rest => some (.le, rest)
  | '=' :: '=' :: rest => some (.eq, rest)
  | '!' :: '=' :: rest => some (.ne, rest)
  | '>' :: rest => some (.gt, rest)
  | '<' :: rest => some (.lt, rest)
  | _ => none

/-- Modelled external collaborator: `packaging.requirements.Requirement` on
simple `name` / `name<op>version` lines. Returns `none` where the library
raises `InvalidRequirement`. -/
def parseRequirement (l : List Char) : Option PyRequirement :=
  let stripped := stripSpaces l
  let (nameCs, rest) := takeUntil (fun c => !isReqNameChar c) stripped
  if nameCs.isEmpty then none
  else
    let rest := stripSpaces rest
    if rest.isEmpty then some ⟨String.mk nameCs, none⟩
    else
      match parseSpecOp rest with
      | none => none
      | some (op, verCs) =>
        let verCs := stripSpaces verCs
        match parseVersion verCs with
        | none => none
        | some ver =>
          let opText : List Char :=
            match op with
            | .ge => ['>', '=']
            | .le => ['<', '=']
            | .eq => ['=', '=']
            | .ne => ['!', '=']
            | .gt => ['>']
            | .lt => ['<']
          some ⟨String.mk nameCs, some (op, ver, String.mk (opText ++ verCs))⟩

/-- Padded numeric comparison on equal-length version lists. -/
def natListCmp : List Nat → List Nat → Ordering
  | [], _ => .eq
  | _ :: _, [] => .eq
  | a :: as, b :: bs =>
    if a < b then .lt else if b < a then .gt else natListCmp as bs

def padZeros (l : List Nat) (n : Nat) : List Nat :=
  l ++ List.replicate (n - l.length) 0

def versionCmp (a b : List Nat) : Ordering :=
  let n := max a.length b.length
  natListCmp (padZeros a n) (padZeros b n)

/-- Modelled external collaborator: `SpecifierSet.contains` for a single
comparison specifier over dotted numeric versions. -/
def specSatisfied (op : SpecOp) (specVer installedVer : List Nat) : Bool :=
  match op, versionCmp installedVer specVer with
  | .ge, .lt => false
  | .ge, _ => true
  | .le, .gt => false
  | .le, _ => true
  | .gt, .gt => true
  | .gt, _ => false
  | .lt, .lt => true
  | .lt, _ => false
  | .eq, .eq => true
  | .eq, _ => false
  | .ne, .eq => false
  | .ne, _ => true

/-- Installed-package metadata: package name to (parsed version, version text). -/
structure PipEnv where
  installed : String → Option (List Nat × String)

/-- The loop body of `_check_python_deps` for one requirement line: `none`
when the line is satisfied, `some entry` for the missing-dependency entry
appended to the report. -/
def checkOneRequirement (env : PipEnv) (reqStr : String) : Option String :=
  match parseRequirement reqStr.data with
  | none => some (reqStr ++ " (failed to parse: InvalidRequirement)")
  | some req =>
    match env.installed req.name with
    | none => some (reqStr ++ " (failed to install)")
    | some (instVer, instVerText) =>
      match req.spec with
      | none => none
      | some (op, specVer, specText) =>
        if specSatisfied op specVer instVer then none
        else
          some (reqStr ++ " (installed " ++ instVerText ++ ", required " ++ specText ++ ")")

/-- Embedding of `_check_python_deps`. -/
def check_python_deps (env : PipEnv) (content : String) : Bool × List String :=
  let requirements := strip_requirement_lines content
  if requirements.isEmpty then (true, [])
  else
    let missing := requirements.filterMap (checkOneRequirement env)
    if missing.isEmpty then (true, []) else (false, missing)

/-! ## Module and Registry (embedding of `src/modules/abc.py`,
`src/modules/python/module.py`, `src/modules/registry.py`)

A module instance is its identity plus its `_is_loaded` flag. The arc
extension point and the validator are external collaborators whose outcomes
are fixed by an environment. -/

structure ModInst where
  id : Nat
  isLoaded : Bool
  deriving DecidableEq, Repr

/-- Embedding of `PythonModule.unload`: when `arc_client.unload_extension`
raises, the `except` branch returns failure before `_set_loaded(False)` runs,
so the flag is unchanged; otherwise the flag is cleared and success returned.
(The inner resync failure is caught and does not affect the result.) -/
def pyUnload (unloadRaises : Bool) (m : ModInst) : Bool × ModInst :=
  if unloadRaises then (false, m)
  else (true, { m with isLoaded := false })

structure PyModEnv where
  validateOk : Bool
  loadExtRaises : Bool
  rollbackLoadRaises : Bool
  deriving DecidableEq

/-- Embedding of `PythonModule.load`: validation first; on reload
`_reload_extension` marks the instance loaded on success, rolls back on
failure (leaving the instance marked loaded on a successful rollback, and
marked unloaded when the rollback re-registration also raises); on fresh load
the instance is marked loaded only when `_load_extension` succeeds. -/
def pyLoad (env : PyModEnv) (m : ModInst) (isReload : Bool) : Bool × ModInst :=
  if !env.validateOk then (false, m)
  else if isReload then
    if !env.loadExtRaises then (true, { m with isLoaded := true })
    else if env.rollbackLoadRaises then (false, { m with isLoaded := false })
    else (false, { m with isLoaded := true })
  else
    if !env.loadExtRaises then (true, { m with isLoaded := true })
    else (false, m)

structure RegState where
  table : String → Option ModInst

def RegState.set (st : RegState) (name : String) (v : Option ModInst) : RegState :=
  ⟨fun n => if n = name then v else st.table n⟩

structure RegEnv where
  createOk : Bool
  newId : Nat
  oldUnloadRaises : Bool
  py : PyModEnv
  deriving DecidableEq

/-- Embedding of `Registry.load_module`: constructs the new instance; a
non-reload on a registered name returns false without side effects; a reload
pops the old entry, unloads the old instance and waits; the new instance's
`load` runs; on success it replaces the table entry, on failure a reload
restores the (by now possibly unloaded) old instance while a fresh load
leaves the table without the entry. -/
def load_module (env : RegEnv) (st : RegState) (name : String) (isReload : Bool) :
    Bool × RegState :=
  if !env.createOk then (false, st)
  else
    let newMod : ModInst := { id := env.newId, isLoaded := false }
    match st.table name, isReload with
    | some _, false => (false, st)
    | oldMod, _ =>
      let st1 := if isReload && oldMod.isSome then st.set name none else st
      let oldMod1 :=
        if isReload then oldMod.map (fun m => (pyUnload env.oldUnloadRaises m).2)
        else oldMod
      let res := pyLoad env.py newMod isReload
      if res.1 then (true, st1.set name (some res.2))
      else
        match oldMod1, isReload with
        | some m, true => (false, st1.set name (some m))
        | _, _ => (false, st1)

/-- Embedding of `Registry.is_module_loaded`. -/
def is_module_loaded (st : RegState) (name : String) : Bool :=
  match st.table name with
  | some m => m.isLoaded
  | none => false

/-! ## Module update command (embedding of `src/commands/module/update.py`)

The command's control flow over the outcomes of its steps; the record tracks
whether the backup directory was created and whether it still exists when the
command returns. -/

structure UpdateEnv where
  dirExists : Bool
  infoOk : Bool
  upToDate : Bool
  backupOk : Bool
  pullResult : Nat
  restoreOk : Bool
  pipOk : Bool
  reloadOk : Bool
  finalLoadOk : Bool
  deriving DecidableEq

inductive UpdateOutcome
  | noDir | noInfo | alreadyUpToDate | backupFailed
  | pullFailedRestored | pullFailedCritical
  | pipFailedRestored | pipFailedCritical
  | reloadFailedRestoredLoaded | reloadFailedRestoredLoadFailed | reloadFailedCritical
  | updated
  deriving DecidableEq, Repr

structure UpdateResult where
  outcome : UpdateOutcome
  backupCreated : Bool
  backupPresentAtReturn : Bool
  deriving DecidableEq, Repr

/-- Embedding of `cmd_module_update`: directory and repo-info checks, the
up-to-date early return, backup creation, pull, dependency install, reload.
`_cleanup_backup` is invoked only on the reload-failure path and on the
success path; the pull-failure and pip-failure paths return right after the
restore attempt. -/
def cmd_module_update (env : UpdateEnv) : UpdateResult :=
  if !env.dirExists then ⟨.noDir, false, false⟩
  else if !env.infoOk then ⟨.noInfo, false, false⟩
  else if env.upToDate then ⟨.alreadyUpToDate, false, false⟩
  else if !env.backupOk then ⟨.backupFailed, false, false⟩
  else if env.pullResult ≠ 0 then
    if env.restoreOk then ⟨.pullFailedRestored, true, true⟩
    else ⟨.pullFailedCritical, true, true⟩
  else if !env.pipOk then
    if env.restoreOk then ⟨.pipFailedRestored, true, true⟩
    else ⟨.pipFailedCritical, true, true⟩
  else if !env.reloadOk then
    if env.restoreOk then
      if env.finalLoadOk then ⟨.reloadFailedRestoredLoaded, true, false⟩
      else ⟨.reloadFailedRestoredLoadFailed, true, false⟩
    else ⟨.reloadFailedCritical, true, false⟩
  else ⟨.updated, true, false⟩

/-! ## Hot-reload watcher debounce (embedding of `src/shared/utils/jurigged.py`)

Discrete-time simulation, time in hundredths of a second so that the default
0.35s debounce is 35 ticks. `_enqueue_target` adds the target to the pending
set and creates the drain task only when none is in flight; `_drain_targets`
sleeps the debounce delay from its creation time and then drains the whole
pending set. -/

inductive TargetKind
  | module | extension
  deriving DecidableEq, Repr

structure ReloadTarget where
  kind : TargetKind
  name : String
  deriving DecidableEq, Repr

structure WatcherState where
  pending : List ReloadTarget
  armTime : Option Nat
  drains : List (Nat × List ReloadTarget)
  deriving DecidableEq, Repr

/-- The drain task firing: at `armTime + d` the pending set is drained. -/
def watcherFire (d : Nat) (s : WatcherState) : WatcherState :=
  match s.armTime with
  | none => s
  | some a => ⟨[], none, s.drains ++ [(a + d, s.pending)]⟩

/-- Embedding of `Jurigged._enqueue_target` at time `now`: deduplicated
insertion into the pending set; the drain task is created (arming the timer)
only if no drain task is in flight — an in-flight timer is NOT re-armed. -/
def watcherEnqueue (now : Nat) (t : ReloadTarget) (s : WatcherState) : WatcherState :=
  { s with
    pending := if s.pending.contains t then s.pending else s.pending ++ [t]
    armTime := match s.armTime with
      | none => some now
      | some a => some a }

/-- One event step: first let an elapsed drain task fire, then enqueue. -/
def watcherStep (d : Nat) (s : WatcherState) (ev : Nat × ReloadTarget) : WatcherState :=
  let s1 :=
    match s.armTime with
    | some a => if a + d ≤ ev.1 then watcherFire d s else s
    | none => s
  watcherEnqueue ev.1 ev.2 s1

/-- Run the watcher over a time-ordered list of classified change events and
let any final in-flight drain fire. -/
def watcherRun (d : Nat) (events : List (Nat × ReloadTarget)) : WatcherState :=
  watcherFire d (events.foldl (watcherStep d) ⟨[], none, []⟩)

/-! ## Registry lemmas -/

theorem pyUnload_id (b : Bool) (m : ModInst) : ((pyUnload b m).2).id = m.id := by
  cases b <;> simp [pyUnload]

/-- Characterization of the registry table entry after a failed reload: with a
constructible module the entry is the old instance as left by its `unload`
call; otherwise the table is untouched. -/
theorem load_module_reload_fail_entry (env : RegEnv) (st : RegState) (name : String)
    (hfail : (load_module env st name true).1 = false) :
    (load_module env st name true).2.table name =
      (if env.createOk then
        (st.table name).map (fun m => (pyUnload env.oldUnloadRaises m).2)
      else st.table name) := by
  obtain ⟨co, nid, our, vo, ler, rlr⟩ := env
  cases co <;> cases our <;> cases vo <;> cases ler <;> cases rlr <;>
    cases ho : st.table name <;>
    simp_all [load_module, pyLoad, pyUnload, RegState.set]

end Kernel

/-! ## Claim theorems -/

namespace Kernel

/-- C1: for every registered module name, when a reload
(`Registry.load_module` with `is_reload=true`) fails at the load step, the
registry table on return holds no entry for the name only if none was
registered before, and any entry it does hold is the original
previously-registered instance (same identity) — never the new,
half-registered instance, whose fresh identity differs from every previously
registered one. -/
theorem C1_reload_failure_never_half_registered
    (env : RegEnv) (st : RegState) (name : String)
    (hfail : (load_module env st name true).1 = false)
    (hfresh : ∀ m₀, st.table name = some m₀ → m₀.id ≠ env.newId) :
    ((load_module env st name true).2.table name = none → st.table name = none) ∧
    (∀ m₁, (load_module env st name true).2.table name = some m₁ →
      ∃ m₀, st.table name = some m₀ ∧ m₁.id = m₀.id ∧ m₁.id ≠ env.newId) := by
  have hentry := load_module_reload_fail_entry env st name hfail
  cases ho : st.table name with
  | none =>
    rw [ho] at hentry
    have h2 : (load_module env st name true).2.table name = none := by
      rw [hentry]; split <;> simp
    exact ⟨fun _ => rfl, fun m₁ hm₁ => absurd hm₁ (by rw [h2]; simp)⟩
  | some m₀ =>
    rw [ho] at hentry
    constructor
    · intro hnone
      rw [hentry] at hnone
      by_cases hc : env.createOk = true <;> simp [hc] at hnone
    · intro m₁ hm₁
      rw [hentry] at hm₁
      refine ⟨m₀, rfl, ?_⟩
      by_cases hc : env.createOk = true <;> simp [hc] at hm₁ <;> subst hm₁
      · rw [pyUnload_id]
        exact ⟨rfl, hfresh m₀ ho⟩
      · exact ⟨rfl, hfresh m₀ ho⟩

/-- Witness for C1 at a concrete failed reload: a registered instance of
identity 0, a fresh instance of identity 1, validation failure. -/
theorem C1_witness :
    ((load_module ⟨true, 1, false, ⟨false, false, false⟩⟩
        ⟨fun n => if n = "m" then some ⟨0, true⟩ else none⟩ "m" true).2.table "m" = none →
      (⟨fun n => if n = "m" then some ⟨0, true⟩ else none⟩ : RegState).table "m" = none) ∧
    (∀ m₁, (load_module ⟨true, 1, false, ⟨false, false, false⟩⟩
        ⟨fun n => if n = "m" then some ⟨0, true⟩ else none⟩ "m" true).2.table "m" = some m₁ →
      ∃ m₀, (⟨fun n => if n = "m" then some ⟨0, true⟩ else none⟩ : RegState).table "m" = some m₀ ∧
        m₁.id = m₀.id ∧ m₁.id ≠ 1) :=
  C1_reload_failure_never_half_registered
    ⟨true, 1, false, ⟨false, false, false⟩⟩
    ⟨fun n => if n = "m" then some ⟨0, true⟩ else none⟩ "m" (by rfl)
    (fun m₀ hm₀ => by
      simp at hm₀
      subst hm₀
      decide)

/-- C9 counterexample: with the old instance loaded, a reload whose old-module
`unload` raises (leaving `is_loaded` true) and whose new load fails restores
the old instance still marked loaded, so `is_module_loaded` returns true, not
false as the claim states. -/
theorem C9_counterexample :
    (load_module ⟨true, 1, true, ⟨true, true, false⟩⟩
      ⟨fun n => if n = "m" then some ⟨0, true⟩ else none⟩ "m" true).1 = false ∧
    (load_module ⟨true, 1, true, ⟨true, true, false⟩⟩
      ⟨fun n => if n = "m" then some ⟨0, true⟩ else none⟩ "m" true).2.table "m" =
      some ⟨0, true⟩ ∧
    is_module_loaded
      (load_module ⟨true, 1, true, ⟨true, true, false⟩⟩
        ⟨fun n => if n = "m" then some ⟨0, true⟩ else none⟩ "m" true).2 "m" = true :=
  ⟨rfl, rfl, rfl⟩

/-- C9 (amended): when a failed reload restores the previous instance and the
old instance's `unload` completed without raising, the restored entry's
`is_loaded` flag is false (`is_module_loaded` returns false); the registry's
rollback path itself never re-marks the instance loaded — but if the old
instance's `unload` raised, the entry keeps its previous flag. -/
theorem C9_amended_restored_entry_unloaded
    (env : RegEnv) (st : RegState) (name : String)
    (hUnload : env.oldUnloadRaises = false)
    (hCreate : env.createOk = true)
    (hfail : (load_module env st name true).1 = false)
    (m₀ : ModInst) (hm₀ : st.table name = some m₀) :
    (load_module env st name true).2.table name = some { m₀ with isLoaded := false } ∧
    is_module_loaded (load_module env st name true).2 name = false := by
  have hentry := load_module_reload_fail_entry env st name hfail
  rw [hCreate, hm₀, hUnload] at hentry
  simp [pyUnload] at hentry
  exact ⟨hentry, by simp [is_module_loaded, hentry]⟩

/-- Witness for C9 (amended) at a concrete failed reload with a successful
old-instance unload. -/
theorem C9_amended_witness :
    (load_module ⟨true, 1, false, ⟨true, true, false⟩⟩
      ⟨fun n => if n = "m" then some ⟨0, true⟩ else none⟩ "m" true).2.table "m" =
      some ⟨0, false⟩ ∧
    is_module_loaded
      (load_module ⟨true, 1, false, ⟨true, true, false⟩⟩
        ⟨fun n => if n = "m" then some ⟨0, true⟩ else none⟩ "m" true).2 "m" = false :=
  C9_amended_restored_entry_unloaded
    ⟨true, 1, false, ⟨true, true, false⟩⟩
    ⟨fun n => if n = "m" then some ⟨0, true⟩ else none⟩ "m" rfl rfl (by rfl) ⟨0, true⟩ (by simp)

/-- C2 counterexample: an update whose backup step succeeds and whose pull
step fails (status 2) restores from the backup and returns while the backup
directory still exists — the backup is not deleted before the operation
returns. -/
theorem C2_counterexample :
    (cmd_module_update ⟨true, true, false, true, 2, true, true, true, true⟩).backupCreated
      = true ∧
    (cmd_module_update
        ⟨true, true, false, true, 2, true, true, true, true⟩).backupPresentAtReturn
      = true := by decide

/-- C2 (amended): the backup directory created by the update operation is
deleted before return on the success path and on the reload-failure path
(after any restore); on pull failure and on dependency-install failure the
operation returns right after the restore attempt and the backup directory is
left in place. -/
theorem C2_amended_backup_cleanup
    (env : UpdateEnv) (hb : (cmd_module_update env).backupCreated = true) :
    (cmd_module_update env).backupPresentAtReturn =
      (decide (env.pullResult ≠ 0) || !env.pipOk) := by
  obtain ⟨de, io, utd, bo, pr, ro, po, rlo, flo⟩ := env
  cases de <;> cases io <;> cases utd <;> cases bo <;> cases ro <;> cases po <;>
    cases rlo <;> cases flo <;>
    by_cases hpr : pr = 0 <;>
    simp_all [cmd_module_update]

/-- Witness for C2 (amended) at the pull-failure environment. -/
theorem C2_amended_witness :
    (cmd_module_update
        ⟨true, true, false, true, 2, true, true, true, true⟩).backupPresentAtReturn =
      (decide ((2 : Nat) ≠ 0) || !true) :=
  C2_amended_backup_cleanup ⟨true, true, false, true, 2, true, true, true, true⟩ (by decide)

/-- C3: at a module whose repository, origin remote and remote ref all
resolve but whose remote commit object does not, `get_repo_commits` produces
the sentinel `-1`, and `get_module_info` feeds it to the `RepoInfo`
constructor, whose `__post_init__` validation raises `ValueError` — the call
raises instead of returning a `RepoInfo` carrying change count `-1` as the
sentinel contract describes. -/
theorem C3_sentinel_construction_raises :
    get_repo_commits
      { discovered := true, isMainRepo := false, openOk := true, originOk := true,
        remoteResolves := true, localCommitOk := true, remoteCommitOk := false,
        localOid := 11, remoteOid := 12, diffFilesChanged := 0,
        originUrl := some "https://foo.com/a.git", changelog := "" } =
      some (some 11, none, -1) ∧
    get_module_info
      { discovered := true, isMainRepo := false, openOk := true, originOk := true,
        remoteResolves := true, localCommitOk := true, remoteCommitOk := false,
        localOid := 11, remoteOid := 12, diffFilesChanged := 0,
        originUrl := some "https://foo.com/a.git", changelog := "" } =
      Except.error "uncommitted_changes must be non-negative, got -1" :=
  ⟨rfl, rfl⟩

/-- C4 counterexample: `parse_repo_url` on
`https://github.com/acme/widget.git` does not produce the canonical name
`github_d_com_s_acme_s_widget`: the `com` host label is dropped before
translation. -/
theorem C4_counterexample :
    (parse_repo_url "https://github.com/acme/widget.git").2 ≠
      ("github_d_com_s_acme_s_widget", true) := by decide

/-- C4 (amended): `parse_repo_url` accepts
`https://github.com/acme/widget.git` and returns the canonical name
`github__acme_s_widget` — the `com` host label is stripped, leaving only the
`__` separator between host and path parts. -/
theorem C4_amended_canonical_name :
    parse_repo_url "https://github.com/acme/widget.git" =
      ("https://github.com/acme/widget.git", "github__acme_s_widget", true) := by decide

/-- C5 counterexample: a repository whose local branch ref already equals the
remote commit (5) while HEAD resolves to a different commit (7) makes
`pull_repo` take the no-op path and return 0 with the local branch ref and
HEAD still pointing at different commits. -/
theorem C5_counterexample :
    pull_repo ⟨true, true, true, 5, true, false, false, false⟩
        ⟨some 5, 7, 7⟩ = (0, ⟨some 5, 7, 7⟩) ∧ (7 : Nat) ≠ 5 := by decide

/-- C5 (amended): when `pull_repo` returns 0 it either took a no-op path —
HEAD and working tree untouched, local branch ref at the remote commit — or
advanced working tree, local branch ref and HEAD together to the remote
commit; consequently, whenever the local branch ref existed and agreed with
HEAD at entry, they still agree at return. -/
theorem C5_amended_pull_success
    (env : PullEnv) (st : PullState)
    (h0 : (pull_repo env st).1 = 0) :
    (((pull_repo env st).2.headTarget = st.headTarget ∧
      (pull_repo env st).2.worktree = st.worktree ∧
      (pull_repo env st).2.localTarget = some env.remoteOid) ∨
     ((pull_repo env st).2.worktree = env.remoteOid ∧
      (pull_repo env st).2.localTarget = some env.remoteOid ∧
      (pull_repo env st).2.headTarget = env.remoteOid)) ∧
    (st.localTarget = some st.headTarget →
      (pull_repo env st).2.localTarget = some ((pull_repo env st).2.headTarget)) := by
  obtain ⟨oo, og, rr, roid, cr, ck, sl, sh⟩ := env
  cases oo <;> cases og <;> cases rr <;> cases cr <;> cases ck <;> cases sl <;>
    cases sh <;> rcases hl : st.localTarget with _ | l <;>
    simp_all [pull_repo] <;>
    by_cases he : l = roid <;>
    simp_all [pull_repo] <;>
    intro hlh <;> subst hlh <;> simp [he]

/-- Witness for C5 (amended): entry state with local branch and HEAD agreeing
at commit 3, remote at 5; the update path advances all three to 5. -/
theorem C5_amended_witness :
    (((pull_repo ⟨true, true, true, 5, true, false, false, false⟩
        ⟨some 3, 3, 3⟩).2.headTarget = (⟨some 3, 3, 3⟩ : PullState).headTarget ∧
      (pull_repo ⟨true, true, true, 5, true, false, false, false⟩
        ⟨some 3, 3, 3⟩).2.worktree = (⟨some 3, 3, 3⟩ : PullState).worktree ∧
      (pull_repo ⟨true, true, true, 5, true, false, false, false⟩
        ⟨some 3, 3, 3⟩).2.localTarget = some 5) ∨
     ((pull_repo ⟨true, true, true, 5, true, false, false, false⟩
        ⟨some 3, 3, 3⟩).2.worktree = 5 ∧
      (pull_repo ⟨true, true, true, 5, true, false, false, false⟩
        ⟨some 3, 3, 3⟩).2.localTarget = some 5 ∧
      (pull_repo ⟨true, true, true, 5, true, false, false, false⟩
        ⟨some 3, 3, 3⟩).2.headTarget = 5)) ∧
    ((⟨some 3, 3, 3⟩ : PullState).localTarget =
        some (⟨some 3, 3, 3⟩ : PullState).headTarget →
      (pull_repo ⟨true, true, true, 5, true, false, false, false⟩
        ⟨some 3, 3, 3⟩).2.localTarget =
        some ((pull_repo ⟨true, true, true, 5, true, false, false, false⟩
          ⟨some 3, 3, 3⟩).2.headTarget)) :=
  C5_amended_pull_success ⟨true, true, true, 5, true, false, false, false⟩
    ⟨some 3, 3, 3⟩ (by decide)

/-- C6 counterexample: a manifest line whose package is not installed is
reported as `"<spec> (failed to install)"`, not `"<spec> (not installed)"`
as the claim states. -/
theorem C6_counterexample :
    check_python_deps ⟨fun _ => none⟩ "foo>=2.0" =
      (false, ["foo>=2.0 (failed to install)"]) ∧
    "foo>=2.0 (failed to install)" ≠ "foo>=2.0 (not installed)" := by decide

/-- C6 (amended): for every manifest line that parses as a requirement, local
validation reports an installed-but-unsatisfying version as
`"<spec> (installed <version>, required <specifier>)"` and a package that is
not installed as `"<spec> (failed to install)"`; the missing-dependency
report of `_check_python_deps` is exactly the per-line entries. In
particular `foo>=2.0` with `foo 1.5` installed yields
`"foo>=2.0 (installed 1.5, required >=2.0)"`. -/
theorem C6_amended_missing_dep_format
    (env : PipEnv) (r : String) (req : PyRequirement)
    (hparse : parseRequirement r.data = some req) :
    (env.installed req.name = none →
      checkOneRequirement env r = some (r ++ " (failed to install)")) ∧
    (∀ op specVer specText instVer instVerText,
      req.spec = some (op, specVer, specText) →
      env.installed req.name = some (instVer, instVerText) →
      specSatisfied op specVer instVer = false →
      checkOneRequirement env r =
        some (r ++ " (installed " ++ instVerText ++ ", required " ++ specText ++ ")")) ∧
    (∀ content, (check_python_deps env content).2 =
      (strip_requirement_lines content).filterMap (checkOneRequirement env)) := by
  refine ⟨?_, ?_, ?_⟩
  · intro hni
    simp [checkOneRequirement, hparse, hni]
  · intro op specVer specText instVer instVerText hspec hinst hsat
    simp [checkOneRequirement, hparse, hinst, hspec, hsat]
  · intro content
    unfold check_python_deps
    by_cases h1 : (strip_requirement_lines content).isEmpty
    · simp [h1, List.isEmpty_iff.mp h1]
    · simp only [h1, Bool.false_eq_true, if_false]
      by_cases h2 :
          ((strip_requirement_lines content).filterMap (checkOneRequirement env)).isEmpty
      · simp [h2, List.isEmpty_iff.mp h2]
      · simp [h2]

/-- Witness for C6 (amended): the concrete scenario `foo>=2.0` with `foo 1.5`
installed. -/
theorem C6_amended_witness :
    checkOneRequirement
      ⟨fun n => if n = "foo" then some ([1, 5], "1.5") else none⟩ "foo>=2.0" =
      some ("foo>=2.0" ++ " (installed " ++ "1.5" ++ ", required " ++ ">=2.0" ++ ")") :=
  (C6_amended_missing_dep_format
    ⟨fun n => if n = "foo" then some ([1, 5], "1.5") else none⟩
    "foo>=2.0" ⟨"foo", some (.ge, [2, 0], ">=2.0")⟩ (by decide)).2.1
    .ge [2, 0] ">=2.0" [1, 5] "1.5" rfl (by decide) (by decide)

/-- C7 counterexample: with a pre-existing directory at the canonical-name
target, the clone fails (destination exists) and `clone_repo`'s exception
handler removes that pre-existing directory — its contents are not left
unchanged. -/
theorem C7_counterexample :
    (⟨fun n => if n = "foo__a" then some 7 else none⟩ : ExtFS).entries "foo__a" = some 7 ∧
    (clone_repo ⟨true, 0⟩ ⟨fun n => if n = "foo__a" then some 7 else none⟩
      "https://foo.com/a.git").1 = ("", false) ∧
    ((clone_repo ⟨true, 0⟩ ⟨fun n => if n = "foo__a" then some 7 else none⟩
      "https://foo.com/a.git").2).entries "foo__a" = none := by
  exact ⟨by decide, by rfl, by rfl⟩

/-- C7 (amended): when `clone_repo` fails on a well-formed URL it removes
whatever directory sits at the target canonical-name path — a partially
created clone and a pre-existing directory alike — and returns failure; only
on a malformed URL is the filesystem left untouched. -/
theorem C7_amended_clone_failure_removes_target
    (env : CloneEnv) (fs : ExtFS) (url : String) :
    (∀ name, (parse_repo_url url).2 = (name, true) →
      (clone_repo env fs url).1.2 = false →
      ((clone_repo env fs url).2).entries name = none) ∧
    ((parse_repo_url url).2.2 = false → (clone_repo env fs url).2 = fs) := by
  rcases hp : parse_repo_url url with ⟨u, nm, v⟩
  cases v
  · refine ⟨fun name hname _ => ?_, fun _ => ?_⟩
    · simp at hname
    · simp [clone_repo, hp]
  · refine ⟨fun name hname hfail => ?_, fun habs => ?_⟩
    · have hnm : nm = name := by
        have := congrArg Prod.fst hname
        simpa using this
      subst hnm
      rcases hfs : fs.entries nm with _ | c
      · cases hnet : env.netOk
        · simp [clone_repo, hp, hfs, hnet, ExtFS.set]
        · exfalso
          simp [clone_repo, hp, hfs, hnet] at hfail
      · simp [clone_repo, hp, hfs, ExtFS.set]
    · exfalso
      simp [hp] at habs

/-- Witness for C7 (amended): a pre-existing directory at `foo__a` is removed
by the failed clone of `https://foo.com/a.git`. -/
theorem C7_amended_witness :
    ((clone_repo ⟨true, 0⟩ ⟨fun n => if n = "foo__a" then some 7 else none⟩
      "https://foo.com/a.git").2).entries "foo__a" = none :=
  (C7_amended_clone_failure_removes_target ⟨true, 0⟩
    ⟨fun n => if n = "foo__a" then some 7 else none⟩ "https://foo.com/a.git").1
    "foo__a" (by decide) (by rfl)

/-- C8 counterexample: two change events 0.20 time-units apart (ticks 0 and
20, debounce 35 ticks = 0.35) produce a drain at tick 35, only 15 ticks
after the second event: the second target did not re-arm the timer and the
drain did not wait for a full debounce window free of change events. -/
theorem C8_counterexample :
    watcherRun 35 [(0, ⟨.module, "m"⟩), (20, ⟨.module, "n"⟩)] =
      ⟨[], none, [(35, [⟨.module, "m"⟩, ⟨.module, "n"⟩])]⟩ ∧
    35 < 20 + 35 := by decide

/-- While the timer armed at `t₁` is in flight, every event strictly inside
the window only inserts its target into the pending set (deduplicated):
no drain fires and the arm time is never moved. -/
theorem watcher_fold_in_window (d t₁ : Nat) :
    ∀ (evs : List (Nat × ReloadTarget)) (p : List ReloadTarget)
      (dr : List (Nat × List ReloadTarget)),
      (∀ ev ∈ evs, ev.1 < t₁ + d) →
      evs.foldl (watcherStep d) ⟨p, some t₁, dr⟩ =
        ⟨evs.foldl (fun acc ev => if acc.contains ev.2 then acc else acc ++ [ev.2]) p,
         some t₁, dr⟩
  | [], _, _, _ => rfl
  | ev :: evs, p, dr, h => by
    have hev : ev.1 < t₁ + d := h ev (List.mem_cons_self ev evs)
    have hnle : ¬(t₁ + d ≤ ev.1) := Nat.not_le.mpr hev
    have hstep : watcherStep d ⟨p, some t₁, dr⟩ ev =
        ⟨if p.contains ev.2 then p else p ++ [ev.2], some t₁, dr⟩ := by
      simp [watcherStep, watcherEnqueue, watcherFire, hnle]
    rw [List.foldl_cons, hstep,
      watcher_fold_in_window d t₁ evs _ dr (fun e he => h e (List.mem_cons_of_mem ev he))]
    rfl

/-- C8 (amended): a classified target arriving while no drain task is in
flight arms the debounce timer; every further change event strictly inside
the window — whether for the same target or a different one — joins the
pending set (deduplicated by identity) without re-arming the timer, and the
watcher performs exactly one drain, one debounce delay after the arming
event, carrying the whole deduplicated pending set. -/
theorem C8_amended_debounce_fixed_window
    (d t₁ : Nat) (a : ReloadTarget) (evs : List (Nat × ReloadTarget))
    (hwin : ∀ ev ∈ evs, ev.1 < t₁ + d) :
    watcherRun d ((t₁, a) :: evs) =
      ⟨[], none,
       [(t₁ + d,
         evs.foldl (fun acc ev => if acc.contains ev.2 then acc else acc ++ [ev.2]) [a])]⟩ := by
  unfold watcherRun
  have h1 : watcherStep d ⟨[], none, []⟩ (t₁, a) = ⟨[a], some t₁, []⟩ := rfl
  rw [List.foldl_cons, h1, watcher_fold_in_window d t₁ evs [a] [] hwin]
  rfl

/-- Witness for C8 (amended), the spec's scenario 4: two change events for
the SAME module 0.10 time-units apart (ticks 0 and 10, debounce 35) coalesce
into exactly one drain at tick 35 carrying that single target. -/
theorem C8_amended_witness :
    watcherRun 35 [(0, ⟨.module, "m"⟩), (10, ⟨.module, "m"⟩)] =
      ⟨[], none, [(35, [⟨.module, "m"⟩])]⟩ := by
  have h := C8_amended_debounce_fixed_window 35 0 ⟨.module, "m"⟩
    [(10, ⟨.module, "m"⟩)] (by decide)
  simpa using h

/-- C10: canonical-name derivation drops every dot-separated host label equal
to `www` or `com`, so it is not injective on accepted URLs: the distinct
valid URLs `https://foo.com/a.git` and `https://www.foo/a.git` both
canonicalize to `foo__a`. -/
theorem C10_canonical_name_collision :
    (∀ parts : List (List Char),
      "www".data ∉ keepNetlocParts parts ∧ "com".data ∉ keepNetlocParts parts) ∧
    parse_repo_url "https://foo.com/a.git" = ("https://foo.com/a.git", "foo__a", true) ∧
    parse_repo_url "https://www.foo/a.git" = ("https://www.foo/a.git", "foo__a", true) ∧
    ("https://foo.com/a.git" : String) ≠ "https://www.foo/a.git" := by
  refine ⟨?_, by decide, by decide, by decide⟩
  intro parts
  constructor <;> intro hmem <;>
    · have hsat := List.of_mem_filter hmem
      simp [keepNetlocParts] at hsat

end Kernel

